import Mathlib

/-!
Verification of the phonelocker EMI device-management backend.

This file gives a shallow embedding of the access-control and device-lock
core of the repository (models `User`, `Device`, `Shop`; the lock/unlock,
bulk lock/unlock and register controllers of `controllers/deviceController`;
the `getUsers` controller of `controllers/userController`; the
`verifyToken`/`authorize` middleware of `middleware/auth.js`; and the
`updateStatistics` aggregator of `models/Shop.js`), and proves or refutes
the specification's claims about it.

Modelling conventions:
  * The entity store (MongoDB) is modelled as in-memory lists; a mongoose
    `save()` of a loaded document is a replace-by-`_id`; `findOne`/`findById`
    is a first-match search; `populate` is a lookup at query time.
  * Timestamps (`new Date()`) are `Nat` values threaded explicitly.
  * Schema validators (such as the `lockReason` enum or the IMEI format)
    belong to the out-of-scope persistence layer and always pass; a save
    stores the document as given.
  * ObjectIds are `Nat`.
  * A JavaScript `TypeError` thrown by dereferencing a `null` populated
    reference is modelled by the branch that the surrounding `try/catch`
    turns into a 500 response, with exactly the writes performed so far.
  * HTTP responses are `ErrResp` (status + message) on failure, an
    operation-specific payload on success.
-/

inductive Role where
  | superadmin
  | shopowner
  | user
deriving DecidableEq, Repr

/-- `Device.lockStatus` sub-document (models/Device.js). -/
structure LockStatus where
  isLocked : Bool
  lockedAt : Option Nat
  unlockedAt : Option Nat
  lockReason : Option String
  lockedBy : Option Nat
deriving DecidableEq, Repr

/-- `User.deviceStatus` sub-document (models/User.js): the per-user mirror of
the owned device's lock state. -/
structure DeviceStatus where
  isLocked : Bool
  lastLockedAt : Option Nat
  lastUnlockedAt : Option Nat
  lockReason : Option String
deriving DecidableEq, Repr

/-- `User.emiDetails` sub-document (models/User.js). -/
structure EmiDetails where
  totalAmount : Int
  paidAmount : Int
  remainingAmount : Int
  monthlyEmi : Int
  status : String
deriving DecidableEq, Repr

/-- `Device.connectionStatus` sub-document (models/Device.js). -/
structure ConnectionStatus where
  isOnline : Bool
  lastSeen : Option Nat
  lastHeartbeat : Option Nat
  connectionType : String
deriving DecidableEq, Repr

/-- `Shop.statistics` sub-document (models/Shop.js): the denormalized
per-shop counters maintained by `updateStatistics`. -/
structure Statistics where
  totalUsers : Nat
  activeUsers : Nat
  lockedDevices : Nat
  totalRevenue : Int
deriving DecidableEq, Repr

/-- A `User` document (models/User.js), restricted to the fields the core
reads or writes. `shop` is the referenced shop's ObjectId. -/
structure User where
  _id : Nat
  name : String
  phone : String
  role : Role
  shop : Option Nat
  deviceId : Option String
  imeiNumber : Option String
  emiDetails : EmiDetails
  deviceStatus : DeviceStatus
  isActive : Bool
  createdAt : Nat
deriving DecidableEq, Repr

/-- A `Device` document (models/Device.js). `user` and `shop` are the
referenced documents' ObjectIds. -/
structure Device where
  _id : Nat
  user : Nat
  shop : Nat
  deviceId : String
  imeiNumber : String
  lockStatus : LockStatus
  connectionStatus : ConnectionStatus
  isActive : Bool
deriving DecidableEq, Repr

/-- A `Shop` document (models/Shop.js), restricted to the fields the core
reads or writes. -/
structure Shop where
  _id : Nat
  name : String
  statistics : Statistics
  isActive : Bool
deriving DecidableEq, Repr

/-- The entity store: the three collections the core operates on. -/
structure DB where
  users : List User
  devices : List Device
  shops : List Shop
deriving DecidableEq, Repr

/-- An error HTTP response: status code and `message` field. -/
structure ErrResp where
  status : Nat
  message : String
deriving DecidableEq, Repr

/-- `User.findById` / the `findOne({_id})` part of a query. -/
def findUserById (users : List User) (id : Nat) : Option User :=
  users.find? (fun u => decide (u._id = id))

/-- `Device.findOne({_id})` with no extra filter. -/
def findDeviceById (devices : List Device) (id : Nat) : Option Device :=
  devices.find? (fun d => decide (d._id = id))

/-- `Shop.findById`. -/
def findShopById (shops : List Shop) (id : Nat) : Option Shop :=
  shops.find? (fun s => decide (s._id = id))

/-- `.populate('shop')` on a user: resolve the referenced shop document,
`none` when the reference is absent or dangling (a `null` populated field). -/
def populateShop (db : DB) (u : User) : Option Shop :=
  match u.shop with
  | none => none
  | some s => findShopById db.shops s

/-- The `userSchema.pre('save')` hook of models/User.js that recomputes
`emiDetails.remainingAmount`. The source guards the recomputation with
JavaScript truthiness: `if (this.emiDetails.totalAmount &&
this.emiDetails.paidAmount)`, so a zero `totalAmount` or zero `paidAmount`
skips the recomputation. (The password-hashing hook is out of scope.) -/
def User.preSaveRemaining (u : User) : User :=
  if u.emiDetails.totalAmount ≠ 0 ∧ u.emiDetails.paidAmount ≠ 0 then
    { u with emiDetails :=
      { u.emiDetails with
        remainingAmount := u.emiDetails.totalAmount - u.emiDetails.paidAmount } }
  else u

/-- `user.save()` on a loaded document: run the pre-save hook, then replace
the stored document with the same `_id`. -/
def saveUserDoc (db : DB) (u : User) : DB :=
  let u' := User.preSaveRemaining u
  { db with users := db.users.map (fun x => if x._id = u'._id then u' else x) }

/-- `device.save()` on a loaded document. -/
def saveDeviceDoc (db : DB) (d : Device) : DB :=
  { db with devices := db.devices.map (fun x => if x._id = d._id then d else x) }

/-- `shop.save()` on a loaded document. -/
def saveShopDoc (db : DB) (s : Shop) : DB :=
  { db with shops := db.shops.map (fun x => if x._id = s._id then s else x) }

/-- `deviceSchema.methods.lockDevice` (models/Device.js): set the lock
fields and save. `reason || 'emi_default'` defaults a falsy (empty) reason. -/
def Device.lockDevice (d : Device) (reason : String) (lockedBy : Nat) (now : Nat) : Device :=
  { d with lockStatus :=
    { d.lockStatus with
      isLocked := true
      lockedAt := some now
      lockReason := some (if reason = "" then "emi_default" else reason)
      lockedBy := some lockedBy } }

/-- `deviceSchema.methods.unlockDevice` (models/Device.js): clears
`isLocked`, stamps `unlockedAt`, and leaves `lockReason`/`lockedAt`/`lockedBy`
untouched. -/
def Device.unlockDevice (d : Device) (now : Nat) : Device :=
  { d with lockStatus :=
    { d.lockStatus with
      isLocked := false
      unlockedAt := some now } }

/-- The `$match`/`$group` aggregation of `shopSchema.methods.updateStatistics`
(models/Shop.js): `none` models the empty aggregation result (no user has
`shop == shopId`, so `$group` emits no row). -/
def shopUserStats (users : List User) (shopId : Nat) : Option Statistics :=
  let matched := users.filter (fun u => decide (u.shop = some shopId))
  if matched.length = 0 then none
  else some
    { totalUsers := matched.length
      activeUsers := (matched.filter (fun u => u.isActive)).length
      lockedDevices := (matched.filter (fun u => u.deviceStatus.isLocked)).length
      totalRevenue := (matched.map (fun u => u.emiDetails.paidAmount)).sum }

/-- `shopSchema.methods.updateStatistics` (models/Shop.js): recompute the
statistics from the current user set and save the shop document. When the
aggregation returns no row (`stats.length == 0`) the statistics field is
left as it was and the document is re-saved unchanged. -/
def Shop.updateStatistics (db : DB) (shop : Shop) : DB :=
  let shop' :=
    match shopUserStats db.users shop._id with
    | some s => { shop with statistics := s }
    | none => shop
  saveShopDoc db shop'

/-- Models `req.path.startsWith('/api/mobile')` from middleware/auth.js.
Express gives middleware mounted inside a router the path relative to the
mount point, so routes of the `/api/users` and `/api/devices` routers see
paths such as `"/"` or `"/:id/lock"`. -/
def isMobilePath (path : String) : Bool :=
  decide (path.toList.take 11 = "/api/mobile".toList)

/-- `verifyToken` (middleware/auth.js). The JWT layer is the opaque identity
resolver of the spec: `token` is the resolved `userId` payload, `none` when
no token was provided. Resolution failures (malformed/expired token) are
prior failures of the external resolver and are not modelled. -/
def verifyToken (db : DB) (token : Option Nat) (path : String) : Except ErrResp User :=
  match token with
  | none => .error ⟨401, "Access denied. No token provided."⟩
  | some uid =>
    match findUserById db.users uid with
    | none => .error ⟨401, "Invalid token. User not found."⟩
    | some user =>
      if user.isActive = false then .error ⟨401, "Account is deactivated."⟩
      else if isMobilePath path = false ∧ user.role = Role.user then
        .error ⟨403, "Web platform access restricted to admin users only"⟩
      else .ok user

/-- `authorize(...roles)` (middleware/auth.js). In every composed route the
`req.user` null-check has already been established by `verifyToken`, so only
the role membership test remains. -/
def authorize (roles : List Role) (u : User) : Option ErrResp :=
  if u.role ∈ roles then none
  else some ⟨403, "Access denied. Insufficient permissions."⟩

/-- The inline mutation of the owning user's mirror performed by the lock
controller and the bulk-lock loop: `user.deviceStatus.isLocked = true;
user.deviceStatus.lastLockedAt = new Date(); user.deviceStatus.lockReason =
reason`. -/
def mirrorLock (u : User) (reason : String) (now : Nat) : User :=
  { u with deviceStatus :=
    { u.deviceStatus with
      isLocked := true
      lastLockedAt := some now
      lockReason := some reason } }

/-- The inline mutation of the owning user's mirror performed by the unlock
controller and the bulk-unlock loop: `isLocked = false; lastUnlockedAt = now;
lockReason = null`. -/
def mirrorUnlock (u : User) (now : Nat) : User :=
  { u with deviceStatus :=
    { u.deviceStatus with
      isLocked := false
      lastUnlockedAt := some now
      lockReason := none } }

/-- The `Device.findOne(filter)` of the single lock/unlock controllers,
with the role-scoped filter built from `currentUser`. The outer `none`
models the `TypeError` thrown by `currentUser.shop._id` when a shopowner's
populated shop is `null` (absent or dangling reference). -/
def scopedDeviceQuery (db : DB) (caller : User) (id : Nat) : Option (Option Device) :=
  match caller.role with
  | Role.shopowner =>
    match populateShop db caller with
    | none => none
    | some cs => some (db.devices.find? (fun d => decide (d._id = id ∧ d.shop = cs._id)))
  | _ => some (db.devices.find? (fun d => decide (d._id = id)))

/-- `lockDevice` (controllers/deviceController.js). `reason` is the request
body's reason after the destructuring default `'emi_default'`. Returns the
store after the call together with the response: the updated device on
success. -/
def lockDevice (db : DB) (caller : User) (id : Nat) (reason : String) (now : Nat) :
    DB × Except ErrResp Device :=
  if caller.role = Role.user then
    (db, .error ⟨403, "Access denied. Users cannot lock devices."⟩)
  else
    match scopedDeviceQuery db caller id with
    | none => (db, .error ⟨500, "Server error while locking device"⟩)
    | some none => (db, .error ⟨404, "Device not found"⟩)
    | some (some device) =>
      if device.lockStatus.isLocked then
        (db, .error ⟨400, "Device is already locked"⟩)
      else
        let device' := Device.lockDevice device reason caller._id now
        let db1 := saveDeviceDoc db device'
        match findUserById db.users device.user with
        | none => (db1, .error ⟨500, "Server error while locking device"⟩)
        | some user =>
          let db2 := saveUserDoc db1 (mirrorLock user reason now)
          match findShopById db.shops device.shop with
          | none => (db2, .error ⟨500, "Server error while locking device"⟩)
          | some shop => (Shop.updateStatistics db2 shop, .ok device')

/-- `unlockDevice` (controllers/deviceController.js). -/
def unlockDevice (db : DB) (caller : User) (id : Nat) (now : Nat) :
    DB × Except ErrResp Device :=
  if caller.role = Role.user then
    (db, .error ⟨403, "Access denied. Users cannot unlock devices."⟩)
  else
    match scopedDeviceQuery db caller id with
    | none => (db, .error ⟨500, "Server error while unlocking device"⟩)
    | some none => (db, .error ⟨404, "Device not found"⟩)
    | some (some device) =>
      if device.lockStatus.isLocked = false then
        (db, .error ⟨400, "Device is not locked"⟩)
      else
        let device' := Device.unlockDevice device now
        let db1 := saveDeviceDoc db device'
        match findUserById db.users device.user with
        | none => (db1, .error ⟨500, "Server error while unlocking device"⟩)
        | some user =>
          let db2 := saveUserDoc db1 (mirrorUnlock user now)
          match findShopById db.shops device.shop with
          | none => (db2, .error ⟨500, "Server error while unlocking device"⟩)
          | some shop => (Shop.updateStatistics db2 shop, .ok device')

/-- `POST /:deviceId/lock` of routes/devices.js: `verifyToken`, then
`authorize('shopowner', 'superadmin')`, then the `lockDevice` controller. -/
def lockDeviceRoute (db : DB) (token : Option Nat) (path : String) (id : Nat)
    (reason : String) (now : Nat) : DB × Except ErrResp Device :=
  match verifyToken db token path with
  | .error e => (db, .error e)
  | .ok caller =>
    match authorize [Role.shopowner, Role.superadmin] caller with
    | some e => (db, .error e)
    | none => lockDevice db caller id reason now

/-- Descending insertion of a user into a list already sorted by `createdAt`
descending; models the Mongo `.sort({createdAt: -1})` default of `getUsers`. -/
def insertByCreatedDesc (u : User) : List User → List User
  | [] => [u]
  | v :: vs =>
    if u.createdAt ≤ v.createdAt then v :: insertByCreatedDesc u vs
    else u :: v :: vs

/-- Sort users by `createdAt` descending (the `getUsers` default sort). -/
def sortByCreatedDesc : List User → List User
  | [] => []
  | u :: us => insertByCreatedDesc u (sortByCreatedDesc us)

/-- `.skip((page-1)*limit).limit(limit)` of `getUsers`. -/
def paginate (l : List User) (page limit : Nat) : List User :=
  (l.drop ((page - 1) * limit)).take limit

/-- `getUsers` (controllers/userController.js) at the default query
(`search`, `role` and `status` empty, so their filter branches are skipped;
`sortBy = 'createdAt'`, `sortOrder = 'desc'`). The filter is built from the
caller's role: shopowners see their own shop minus superadmin rows, a
`user`-role caller's filter pins `_id` to the caller, superadmin has no
extra filter. The `none` populated shop of a shopowner caller makes
`currentUser.shop._id` throw, a 500. -/
def getUsers (db : DB) (caller : User) (page limit : Nat) :
    Except ErrResp (List User) :=
  match caller.role with
  | Role.shopowner =>
    match populateShop db caller with
    | none => .error ⟨500, "Server error while fetching users"⟩
    | some cs =>
      .ok (paginate (sortByCreatedDesc (db.users.filter
        (fun u => decide (u.shop = some cs._id ∧ u.role ≠ Role.superadmin)))) page limit)
  | Role.user =>
    .ok (paginate (sortByCreatedDesc (db.users.filter
      (fun u => decide (u._id = caller._id)))) page limit)
  | Role.superadmin =>
    .ok (paginate (sortByCreatedDesc db.users) page limit)

/-- `GET /` of routes/users.js, mounted at `/api/users`: `verifyToken` (which
inside this router sees the relative `req.path` `"/"`) followed by the
`getUsers` controller. -/
def listUsersRoute (db : DB) (token : Option Nat) (page limit : Nat) :
    Except ErrResp (List User) :=
  match verifyToken db token "/" with
  | .error e => .error e
  | .ok caller => getUsers db caller page limit

/-- The access-permission block of `registerDevice`
(controllers/deviceController.js). `some none` is a pass, `some (some e)` a
denial response, `none` the `TypeError` of a `null` populated shop
(`user.shop._id` / `currentUser.shop._id`), which the catch turns into 500. -/
def registerAccessCheck (db : DB) (caller target : User) (userId : Nat) :
    Option (Option ErrResp) :=
  match caller.role with
  | Role.shopowner =>
    match populateShop db target, populateShop db caller with
    | some ts, some cs =>
      if ts._id ≠ cs._id then
        some (some ⟨403, "Access denied. User not in your shop."⟩)
      else some none
    | _, _ => none
  | Role.user =>
    if caller._id ≠ userId then
      some (some ⟨403, "Access denied. You can only register your own device."⟩)
    else some none
  | Role.superadmin => some none

/-- `registerDevice` (controllers/deviceController.js). `newId` is the
ObjectId the store assigns to the created document. The duplicate check is
the single combined query `Device.findOne({$or: [{deviceId}, {imeiNumber}]})`. -/
def registerDevice (db : DB) (caller : User) (userId : Nat)
    (deviceId imeiNumber : String) (newId now : Nat) : DB × Except ErrResp Device :=
  match findUserById db.users userId with
  | none => (db, .error ⟨404, "User not found"⟩)
  | some target =>
    match registerAccessCheck db caller target userId with
    | none => (db, .error ⟨500, "Server error while registering device"⟩)
    | some (some e) => (db, .error e)
    | some none =>
      match db.devices.find?
          (fun d => decide (d.deviceId = deviceId ∨ d.imeiNumber = imeiNumber)) with
      | some _ => (db, .error ⟨400, "Device with this ID or IMEI already exists"⟩)
      | none =>
        match populateShop db target with
        | none => (db, .error ⟨500, "Server error while registering device"⟩)
        | some ts =>
          let device : Device :=
            { _id := newId
              user := userId
              shop := ts._id
              deviceId := deviceId
              imeiNumber := imeiNumber
              lockStatus :=
                { isLocked := false, lockedAt := none, unlockedAt := none
                  lockReason := some "emi_default", lockedBy := none }
              connectionStatus :=
                { isOnline := true, lastSeen := some now
                  lastHeartbeat := some now, connectionType := "offline" }
              isActive := true }
          let db1 := { db with devices := db.devices ++ [device] }
          let db2 := saveUserDoc db1
            { target with deviceId := some deviceId, imeiNumber := some imeiNumber }
          (Shop.updateStatistics db2 ts, .ok device)

/-- One entry of the bulk `results.successful` list. -/
structure BulkSuccess where
  deviceId : Nat
  deviceName : String
  userName : String
deriving DecidableEq, Repr

/-- One entry of the bulk `results.failed` list. -/
structure BulkFailure where
  deviceId : Nat
  deviceName : String
  reason : String
deriving DecidableEq, Repr

/-- The bulk operations' `results` accumulator. -/
structure BulkResults where
  successful : List BulkSuccess
  failed : List BulkFailure
deriving DecidableEq, Repr

/-- The `Device.find(filter)` of the bulk controllers: `_id ∈ deviceIds`,
restricted to the caller's shop for shopowners. The outer `none` models the
`TypeError` of a shopowner caller with a `null` populated shop. -/
def bulkScopedDevices (db : DB) (caller : User) (deviceIds : List Nat) :
    Option (List Device) :=
  match caller.role with
  | Role.shopowner =>
    match populateShop db caller with
    | none => none
    | some cs =>
      some (db.devices.filter (fun d => decide (d._id ∈ deviceIds ∧ d.shop = cs._id)))
  | _ => some (db.devices.filter (fun d => decide (d._id ∈ deviceIds)))

/-- The message of the `TypeError` raised inside the bulk loop's `try` when a
device's populated `user` is `null`; the `catch` stores `error.message` as
the failure reason. -/
def nullUserMessage : String := "Cannot read properties of null"

/-- One iteration of the `for (const device of devices)` loop of
`bulkLockDevices`: lock and mirror when the device is unlocked, otherwise
collect an `'Already locked'` failure; an in-loop error is collected as a
failure without aborting the batch. -/
def bulkLockStep (callerId : Nat) (reason : String) (now : Nat)
    (acc : DB × BulkResults) (d : Device) : DB × BulkResults :=
  let db := acc.1
  let res := acc.2
  if d.lockStatus.isLocked = false then
    let d' := Device.lockDevice d reason callerId now
    let db1 := saveDeviceDoc db d'
    match findUserById db.users d.user with
    | none =>
      (db1, { res with failed := res.failed ++ [⟨d._id, d.deviceId, nullUserMessage⟩] })
    | some u =>
      let db2 := saveUserDoc db1 (mirrorLock u reason now)
      (db2, { res with successful := res.successful ++ [⟨d._id, d.deviceId, u.name⟩] })
  else
    (db, { res with failed := res.failed ++ [⟨d._id, d.deviceId, "Already locked"⟩] })

/-- One iteration of the bulk-unlock loop. -/
def bulkUnlockStep (now : Nat) (acc : DB × BulkResults) (d : Device) :
    DB × BulkResults :=
  let db := acc.1
  let res := acc.2
  if d.lockStatus.isLocked then
    let d' := Device.unlockDevice d now
    let db1 := saveDeviceDoc db d'
    match findUserById db.users d.user with
    | none =>
      (db1, { res with failed := res.failed ++ [⟨d._id, d.deviceId, nullUserMessage⟩] })
    | some u =>
      let db2 := saveUserDoc db1 (mirrorUnlock u now)
      (db2, { res with successful := res.successful ++ [⟨d._id, d.deviceId, u.name⟩] })
  else
    (db, { res with failed := res.failed ++ [⟨d._id, d.deviceId, "Not locked"⟩] })

/-- `[...new Set(xs)]`: first-occurrence deduplication, insertion order. -/
def dedupFirstAux (seen : List Nat) : List Nat → List Nat
  | [] => []
  | x :: xs =>
    if x ∈ seen then dedupFirstAux seen xs
    else x :: dedupFirstAux (x :: seen) xs

/-- `[...new Set(devices.map(d => d.shop._id))]` of the bulk controllers. -/
def dedupFirst (l : List Nat) : List Nat := dedupFirstAux [] l

/-- The shop-id map `devices.map(d => d.shop._id.toString())` of the bulk
controllers, taken over the shop documents populated at query time: `none`
models the `TypeError` thrown by `._id` on a `null` populated shop (a
dangling reference — reachable, since deleting a shop keeps its devices).
This dereference sits outside the per-device try/catch, so its throw is
caught by the controller's outer catch and aborts the whole response with a
500 after the loop's writes. -/
def populatedShopIds (db : DB) : List Device → Option (List Nat)
  | [] => some []
  | d :: rest =>
    match findShopById db.shops d.shop with
    | none => none
    | some sh =>
      match populatedShopIds db rest with
      | none => none
      | some ids => some (sh._id :: ids)

/-- The `for (const shopId of shopIds)` loop of the bulk controllers: for
each deduplicated shop id, `Shop.findById` then `updateStatistics`; the
source's `if (shop)` guard skips an id whose shop is absent (under the
`populatedShopIds` guard this branch is unreachable, since every id comes
from a shop document that populated successfully and the batch never removes
shops). Also returns the ids for which `updateStatistics` ran, in order. -/
def runStats (db : DB) : List Nat → DB × List Nat
  | [] => (db, [])
  | sid :: rest =>
    match findShopById db.shops sid with
    | none => runStats db rest
    | some sh =>
      let r := runStats (Shop.updateStatistics db sh) rest
      (r.1, sid :: r.2)

/-- `bulkLockDevices` (controllers/deviceController.js). `reason` is the
request body's reason after the destructuring default `'bulk_operation'`.
The third component records which shops' statistics were recomputed. -/
def bulkLockDevices (db : DB) (caller : User) (deviceIds : List Nat)
    (reason : String) (now : Nat) : DB × Except ErrResp BulkResults × List Nat :=
  if deviceIds = [] then
    (db, .error ⟨400, "Device IDs array is required"⟩, [])
  else if caller.role = Role.user then
    (db, .error ⟨403, "Access denied. Users cannot perform bulk operations."⟩, [])
  else
    match bulkScopedDevices db caller deviceIds with
    | none => (db, .error ⟨500, "Server error during bulk lock operation"⟩, [])
    | some devices =>
      if devices = [] then (db, .error ⟨404, "No devices found"⟩, [])
      else
        let p := devices.foldl (bulkLockStep caller._id reason now) (db, ⟨[], []⟩)
        match populatedShopIds db devices with
        | none =>
          (p.1, .error ⟨500, "Server error during bulk lock operation"⟩, [])
        | some rawIds =>
          let shopIds := dedupFirst rawIds
          let r := runStats p.1 shopIds
          (r.1, .ok p.2, r.2)

/-- `bulkUnlockDevices` (controllers/deviceController.js). -/
def bulkUnlockDevices (db : DB) (caller : User) (deviceIds : List Nat)
    (now : Nat) : DB × Except ErrResp BulkResults × List Nat :=
  if deviceIds = [] then
    (db, .error ⟨400, "Device IDs array is required"⟩, [])
  else if caller.role = Role.user then
    (db, .error ⟨403, "Access denied. Users cannot perform bulk operations."⟩, [])
  else
    match bulkScopedDevices db caller deviceIds with
    | none => (db, .error ⟨500, "Server error during bulk unlock operation"⟩, [])
    | some devices =>
      if devices = [] then (db, .error ⟨404, "No devices found"⟩, [])
      else
        let p := devices.foldl (bulkUnlockStep now) (db, ⟨[], []⟩)
        match populatedShopIds db devices with
        | none =>
          (p.1, .error ⟨500, "Server error during bulk unlock operation"⟩, [])
        | some rawIds =>
          let shopIds := dedupFirst rawIds
          let r := runStats p.1 shopIds
          (r.1, .ok p.2, r.2)

lemma find_replace_eq {α : Type} (f : α → Nat) (l : List α) (k : Nat) (v : α)
    (hv : f v = k) (hex : ∃ x ∈ l, f x = k) :
    (l.map (fun x => if f x = f v then v else x)).find? (fun x => decide (f x = k)) =
      some v := by
  induction l with
  | nil => simp at hex
  | cons a t ih =>
    obtain ⟨x, hx, hfx⟩ := hex
    by_cases h : f a = k
    · have hcond : f a = f v := by rw [h, hv]
      simp only [List.map_cons, hcond, if_pos rfl]
      exact List.find?_cons_of_pos _ (by simp [hv])
    · have hcond : f a ≠ f v := by rw [hv]; exact h
      simp only [List.map_cons, if_neg hcond]
      rw [List.find?_cons_of_neg _ (by simp [h])]
      apply ih
      rcases List.mem_cons.mp hx with rfl | hx
      · exact absurd hfx h
      · exact ⟨x, hx, hfx⟩

lemma find_replace_unique {α : Type} (f : α → Nat) (l : List α) (v : α)
    (p : α → Bool) (hp : ∀ x, p x = true → f x = f v) (y : α)
    (h : (l.map (fun x => if f x = f v then v else x)).find? p = some y) : y = v := by
  have hpy : p y = true := List.find?_some h
  have hmem : y ∈ l.map (fun x => if f x = f v then v else x) :=
    List.mem_of_find?_eq_some h
  obtain ⟨x, _, hxy⟩ := List.mem_map.mp hmem
  by_cases hc : f x = f v
  · rw [if_pos hc] at hxy; exact hxy.symm
  · rw [if_neg hc] at hxy
    subst hxy
    exact absurd (hp x hpy) hc

lemma map_f_replace {α : Type} (f : α → Nat) (l : List α) (v : α) :
    (l.map (fun x => if f x = f v then v else x)).map f = l.map f := by
  induction l with
  | nil => rfl
  | cons a t ih =>
    simp only [List.map_cons, ih, List.cons.injEq, and_true]
    split
    · next h => exact h.symm
    · rfl

lemma User.preSaveRemaining_id (u : User) : (User.preSaveRemaining u)._id = u._id := by
  unfold User.preSaveRemaining; split <;> rfl

lemma User.preSaveRemaining_deviceStatus (u : User) :
    (User.preSaveRemaining u).deviceStatus = u.deviceStatus := by
  unfold User.preSaveRemaining; split <;> rfl

lemma User.preSaveRemaining_shop (u : User) :
    (User.preSaveRemaining u).shop = u.shop := by
  unfold User.preSaveRemaining; split <;> rfl

lemma saveUserDoc_devices (db : DB) (u : User) :
    (saveUserDoc db u).devices = db.devices := rfl

lemma saveUserDoc_shops (db : DB) (u : User) :
    (saveUserDoc db u).shops = db.shops := rfl

lemma saveDeviceDoc_users (db : DB) (d : Device) :
    (saveDeviceDoc db d).users = db.users := rfl

lemma saveDeviceDoc_shops (db : DB) (d : Device) :
    (saveDeviceDoc db d).shops = db.shops := rfl

lemma saveShopDoc_users (db : DB) (s : Shop) :
    (saveShopDoc db s).users = db.users := rfl

lemma saveShopDoc_devices (db : DB) (s : Shop) :
    (saveShopDoc db s).devices = db.devices := rfl

lemma updateStatistics_users (db : DB) (s : Shop) :
    (Shop.updateStatistics db s).users = db.users := rfl

lemma updateStatistics_devices (db : DB) (s : Shop) :
    (Shop.updateStatistics db s).devices = db.devices := rfl

lemma scopedDeviceQuery_some (db : DB) (caller : User) (id : Nat) (d : Device)
    (h : scopedDeviceQuery db caller id = some (some d)) :
    d ∈ db.devices ∧ d._id = id := by
  unfold scopedDeviceQuery at h
  split at h
  · cases hps : populateShop db caller with
    | none => rw [hps] at h; cases h
    | some cs =>
      rw [hps] at h
      simp only [Option.some.injEq] at h
      refine ⟨List.mem_of_find?_eq_some h, ?_⟩
      have := List.find?_some h
      simp only [decide_eq_true_eq] at this
      exact this.1
  · simp only [Option.some.injEq] at h
    refine ⟨List.mem_of_find?_eq_some h, ?_⟩
    have := List.find?_some h
    simp only [decide_eq_true_eq] at this
    exact this

lemma lockDevice_ok_cases (db : DB) (caller : User) (id : Nat) (reason : String)
    (now : Nat) (db' : DB) (r : Device)
    (h : lockDevice db caller id reason now = (db', Except.ok r)) :
    ∃ d u sh, scopedDeviceQuery db caller id = some (some d) ∧
      d.lockStatus.isLocked = false ∧
      findUserById db.users d.user = some u ∧
      findShopById db.shops d.shop = some sh ∧
      r = Device.lockDevice d reason caller._id now ∧
      db' = Shop.updateStatistics
              (saveUserDoc (saveDeviceDoc db r) (mirrorLock u reason now)) sh := by
  unfold lockDevice at h
  split at h
  · simp at h
  · split at h
    · simp at h
    · simp at h
    · rename_i d hq
      split at h
      · simp at h
      · rename_i hlocked
        split at h
        · simp at h
        · rename_i u hu
          split at h
          · simp at h
          · rename_i sh hsh
            simp only [Prod.mk.injEq, Except.ok.injEq] at h
            obtain ⟨hdb, hr⟩ := h
            subst hr
            subst hdb
            exact ⟨d, u, sh, hq, by simpa using hlocked, hu, hsh, rfl, rfl⟩

lemma unlockDevice_ok_cases (db : DB) (caller : User) (id : Nat)
    (now : Nat) (db' : DB) (r : Device)
    (h : unlockDevice db caller id now = (db', Except.ok r)) :
    ∃ d u sh, scopedDeviceQuery db caller id = some (some d) ∧
      d.lockStatus.isLocked = true ∧
      findUserById db.users d.user = some u ∧
      findShopById db.shops d.shop = some sh ∧
      r = Device.unlockDevice d now ∧
      db' = Shop.updateStatistics
              (saveUserDoc (saveDeviceDoc db r) (mirrorUnlock u now)) sh := by
  unfold unlockDevice at h
  split at h
  · simp at h
  · split at h
    · simp at h
    · simp at h
    · rename_i d hq
      split at h
      · simp at h
      · rename_i hlocked
        split at h
        · simp at h
        · rename_i u hu
          split at h
          · simp at h
          · rename_i sh hsh
            simp only [Prod.mk.injEq, Except.ok.injEq] at h
            obtain ⟨hdb, hr⟩ := h
            subst hr
            subst hdb
            exact ⟨d, u, sh, hq, by simpa using hlocked, hu, hsh, rfl, rfl⟩

/-- Concrete fixture: zeroed EMI details. -/
def emiZero : EmiDetails := ⟨0, 0, 0, 0, "active"⟩

/-- Concrete fixture: a user mirror with no lock recorded. -/
def mirrorClear : DeviceStatus := ⟨false, none, none, none⟩

/-- Concrete fixture: a default connection status. -/
def connDefault : ConnectionStatus := ⟨false, none, none, "offline"⟩

/-- Concrete fixture shop (id 1). -/
def shopA : Shop := ⟨1, "Shop A", ⟨0, 0, 0, 0⟩, true⟩

/-- Concrete fixture shop (id 2). -/
def shopB : Shop := ⟨2, "Shop B", ⟨0, 0, 0, 0⟩, true⟩

/-- Concrete fixture superadmin. -/
def adminW : User :=
  ⟨100, "Root", "900", Role.superadmin, none, none, none, emiZero, mirrorClear, true, 0⟩

/-- Concrete fixture customer owning the unlocked device 1 in shop 1. -/
def custA : User :=
  ⟨11, "Asha", "901", Role.user, some 1, some "DEV1", some "111111111111111",
    ⟨1000, 200, 800, 100, "active"⟩, mirrorClear, true, 1⟩

/-- Concrete fixture customer owning the locked device 2 in shop 1. -/
def custB : User :=
  ⟨12, "Bilal", "902", Role.user, some 1, some "DEV2", some "222222222222222",
    ⟨2000, 500, 1500, 100, "active"⟩,
    ⟨true, some 5, none, some "manual_lock"⟩, true, 2⟩

/-- Concrete fixture device 1: unlocked, owned by user 11, shop 1. -/
def devA : Device :=
  ⟨1, 11, 1, "DEV1", "111111111111111",
    ⟨false, none, none, some "emi_default", none⟩, connDefault, true⟩

/-- Concrete fixture device 2: locked, owned by user 12, shop 1. -/
def devB : Device :=
  ⟨2, 12, 1, "DEV2", "222222222222222",
    ⟨true, some 5, none, some "manual_lock", some 100⟩, connDefault, true⟩

/-- Concrete fixture store. -/
def dbW : DB := ⟨[adminW, custA, custB], [devA, devB], [shopA, shopB]⟩

/-- C1: for every device on which a single lock or unlock operation completes
successfully, the resulting `Device.lockStatus.isLocked` equals the owning
`User.deviceStatus.isLocked`: the lock controller writes `isLocked = true` to
the device and mirrors `true` into the owning user, and the unlock controller
writes and mirrors `false`, before responding. -/
theorem c1_single_op_mirror_consistency (db : DB) (caller : User) (id : Nat)
    (reason : String) (now : Nat) (db' : DB) (r : Device) :
    (lockDevice db caller id reason now = (db', Except.ok r) →
      ∃ d u, findDeviceById db'.devices id = some d ∧
        findUserById db'.users d.user = some u ∧
        d.lockStatus.isLocked = u.deviceStatus.isLocked) ∧
    (unlockDevice db caller id now = (db', Except.ok r) →
      ∃ d u, findDeviceById db'.devices id = some d ∧
        findUserById db'.users d.user = some u ∧
        d.lockStatus.isLocked = u.deviceStatus.isLocked) := by
  constructor
  · intro h
    obtain ⟨d, u, sh, hq, _, hu, _, hr, hdb⟩ :=
      lockDevice_ok_cases db caller id reason now db' r h
    obtain ⟨hdmem, hdid⟩ := scopedDeviceQuery_some db caller id d hq
    simp only [findUserById] at hu
    have humem := List.mem_of_find?_eq_some hu
    have huid : u._id = d.user := by simpa using List.find?_some hu
    have hrid : r._id = id := by rw [hr]; exact hdid
    have hruser : r.user = d.user := by rw [hr]; rfl
    have hdev : db'.devices =
        db.devices.map (fun x => if x._id = r._id then r else x) := by
      rw [hdb]; rfl
    have husr : db'.users =
        db.users.map (fun x =>
          if x._id = (User.preSaveRemaining (mirrorLock u reason now))._id
          then User.preSaveRemaining (mirrorLock u reason now) else x) := by
      rw [hdb]; rfl
    refine ⟨r, User.preSaveRemaining (mirrorLock u reason now), ?_, ?_, ?_⟩
    · rw [findDeviceById, hdev]
      exact find_replace_eq Device._id db.devices id r hrid ⟨d, hdmem, hdid⟩
    · rw [findUserById, husr, hruser]
      refine find_replace_eq User._id db.users d.user _ ?_ ⟨u, humem, huid⟩
      rw [User.preSaveRemaining_id]
      exact huid
    · rw [hr, User.preSaveRemaining_deviceStatus]
      rfl
  · intro h
    obtain ⟨d, u, sh, hq, _, hu, _, hr, hdb⟩ :=
      unlockDevice_ok_cases db caller id now db' r h
    obtain ⟨hdmem, hdid⟩ := scopedDeviceQuery_some db caller id d hq
    simp only [findUserById] at hu
    have humem := List.mem_of_find?_eq_some hu
    have huid : u._id = d.user := by simpa using List.find?_some hu
    have hrid : r._id = id := by rw [hr]; exact hdid
    have hruser : r.user = d.user := by rw [hr]; rfl
    have hdev : db'.devices =
        db.devices.map (fun x => if x._id = r._id then r else x) := by
      rw [hdb]; rfl
    have husr : db'.users =
        db.users.map (fun x =>
          if x._id = (User.preSaveRemaining (mirrorUnlock u now))._id
          then User.preSaveRemaining (mirrorUnlock u now) else x) := by
      rw [hdb]; rfl
    refine ⟨r, User.preSaveRemaining (mirrorUnlock u now), ?_, ?_, ?_⟩
    · rw [findDeviceById, hdev]
      exact find_replace_eq Device._id db.devices id r hrid ⟨d, hdmem, hdid⟩
    · rw [findUserById, husr, hruser]
      refine find_replace_eq User._id db.users d.user _ ?_ ⟨u, humem, huid⟩
      rw [User.preSaveRemaining_id]
      exact huid
    · rw [hr, User.preSaveRemaining_deviceStatus]
      rfl

/-- C1 witness: a successful lock of fixture device 1 by the superadmin, with
the hypothesis discharged by evaluation. -/
theorem c1_single_op_mirror_consistency_witness :
    ∃ d u,
      findDeviceById (lockDevice dbW adminW 1 "emi_default" 10).1.devices 1 = some d ∧
      findUserById (lockDevice dbW adminW 1 "emi_default" 10).1.users d.user = some u ∧
      d.lockStatus.isLocked = u.deviceStatus.isLocked :=
  (c1_single_op_mirror_consistency dbW adminW 1 "emi_default" 10
      (lockDevice dbW adminW 1 "emi_default" 10).1
      (Device.lockDevice devA "emi_default" 100 10)).1 rfl

lemma scopedDeviceQuery_replaced (dbA : DB) (caller : User) (id : Nat)
    (l : List Device) (v : Device) (hvid : v._id = id)
    (hdev : dbA.devices = l.map (fun x => if x._id = v._id then v else x))
    (d' : Device) (h : scopedDeviceQuery dbA caller id = some (some d')) : d' = v := by
  unfold scopedDeviceQuery at h
  split at h
  · cases hps : populateShop dbA caller with
    | none => rw [hps] at h; cases h
    | some cs =>
      rw [hps] at h
      simp only [Option.some.injEq] at h
      rw [hdev] at h
      refine find_replace_unique Device._id l v _ (fun x hx => ?_) d' h
      have hx' := of_decide_eq_true hx
      rw [hvid]
      exact hx'.1
  · simp only [Option.some.injEq] at h
    rw [hdev] at h
    refine find_replace_unique Device._id l v _ (fun x hx => ?_) d' h
    have hx' := of_decide_eq_true hx
    rw [hvid]
    exact hx'

/-- C2 counterexample: on the fixture store, the superadmin locks device 1
with reason `"manual_lock"` and then unlocks it; the resulting device has
`lockStatus.lockReason = some "manual_lock"`, not `null` — the model method
`unlockDevice` never clears the device's `lockReason` (only the user mirror's
is nulled), so the claimed `lockReason=null` is false. -/
theorem c2_lock_unlock_counterexample :
    ((findDeviceById
        (unlockDevice (lockDevice dbW adminW 1 "manual_lock" 10).1 adminW 1 20).1.devices
        1).map (fun d => d.lockStatus.lockReason)) = some (some "manual_lock") ∧
    ¬ (((findDeviceById
        (unlockDevice (lockDevice dbW adminW 1 "manual_lock" 10).1 adminW 1 20).1.devices
        1).map (fun d => d.lockStatus.lockReason)) = some none) := by
  constructor
  · rfl
  · decide

/-- C2 amended: lock followed immediately by unlock returns the device to
`isLocked=false` with `unlockedAt` set; the device's `lockStatus.lockReason`
is left at the value written by the lock (it is nulled only on the owning
user's mirror, whose `deviceStatus.lockReason` becomes `null`). Unlocking a
device that is not locked fails with 400 "Device is not locked", leaving the
store unchanged — so unlock twice in a row fails on the second call. -/
theorem c2_lock_then_unlock_amended (db : DB) (caller : User) (id : Nat)
    (reason : String) (n1 n2 : Nat) (db1 db2 : DB) (r1 r2 : Device) :
    (lockDevice db caller id reason n1 = (db1, Except.ok r1) →
     unlockDevice db1 caller id n2 = (db2, Except.ok r2) →
      ∃ d2, findDeviceById db2.devices id = some d2 ∧
        d2.lockStatus.isLocked = false ∧
        d2.lockStatus.unlockedAt = some n2 ∧
        d2.lockStatus.lockReason =
          some (if reason = "" then "emi_default" else reason) ∧
        ∃ u2, findUserById db2.users d2.user = some u2 ∧
          u2.deviceStatus.isLocked = false ∧
          u2.deviceStatus.lockReason = none) ∧
    (∀ d, scopedDeviceQuery db caller id = some (some d) →
      d.lockStatus.isLocked = false → caller.role ≠ Role.user →
      unlockDevice db caller id n2 = (db, Except.error ⟨400, "Device is not locked"⟩)) := by
  constructor
  · intro hL hU
    obtain ⟨d, u, sh, hq, hnl, hu, hsh, hr1, hdb1⟩ :=
      lockDevice_ok_cases db caller id reason n1 db1 r1 hL
    obtain ⟨d1, u1, sh1, hq1, hl1, hu1, hsh1, hr2, hdb2⟩ :=
      unlockDevice_ok_cases db1 caller id n2 db2 r2 hU
    obtain ⟨hdmem, hdid⟩ := scopedDeviceQuery_some db caller id d hq
    have hr1id : r1._id = id := by rw [hr1]; exact hdid
    have hdev1 : db1.devices =
        db.devices.map (fun x => if x._id = r1._id then r1 else x) := by
      rw [hdb1]; rfl
    have hd1r1 : d1 = r1 :=
      scopedDeviceQuery_replaced db1 caller id db.devices r1 hr1id hdev1 d1 hq1
    obtain ⟨hd1mem, hd1id⟩ := scopedDeviceQuery_some db1 caller id d1 hq1
    simp only [findUserById] at hu1
    have hu1mem := List.mem_of_find?_eq_some hu1
    have hu1id : u1._id = d1.user := by simpa using List.find?_some hu1
    have hr2id : r2._id = id := by rw [hr2]; exact hd1id
    have hr2user : r2.user = d1.user := by rw [hr2]; rfl
    have hdev2 : db2.devices =
        db1.devices.map (fun x => if x._id = r2._id then r2 else x) := by
      rw [hdb2]; rfl
    have husr2 : db2.users =
        db1.users.map (fun x =>
          if x._id = (User.preSaveRemaining (mirrorUnlock u1 n2))._id
          then User.preSaveRemaining (mirrorUnlock u1 n2) else x) := by
      rw [hdb2]; rfl
    refine ⟨r2, ?_, ?_, ?_, ?_, ?_⟩
    · rw [findDeviceById, hdev2]
      exact find_replace_eq Device._id db1.devices id r2 hr2id ⟨d1, hd1mem, hd1id⟩
    · rw [hr2]; rfl
    · rw [hr2]; rfl
    · rw [hr2]
      show d1.lockStatus.lockReason = some (if reason = "" then "emi_default" else reason)
      rw [hd1r1, hr1]
      rfl
    · refine ⟨User.preSaveRemaining (mirrorUnlock u1 n2), ?_, ?_, ?_⟩
      · rw [findUserById, husr2, hr2user]
        refine find_replace_eq User._id db1.users d1.user _ ?_ ⟨u1, hu1mem, hu1id⟩
        rw [User.preSaveRemaining_id]
        exact hu1id
      · rw [User.preSaveRemaining_deviceStatus]
        rfl
      · rw [User.preSaveRemaining_deviceStatus]
        rfl
  · intro d hqd hnl hrole
    unfold unlockDevice
    rw [if_neg hrole, hqd]
    simp [hnl]

/-- C2 amended witness: both parts instantiated on the fixture store — a
lock/unlock round trip of device 1, and a direct unlock of the (unlocked)
device 1 failing with 400. -/
theorem c2_lock_then_unlock_amended_witness :
    (∃ d2, findDeviceById
        (unlockDevice (lockDevice dbW adminW 1 "manual_lock" 10).1 adminW 1 20).1.devices
        1 = some d2 ∧
      d2.lockStatus.isLocked = false ∧
      d2.lockStatus.unlockedAt = some 20 ∧
      d2.lockStatus.lockReason =
        some (if "manual_lock" = "" then "emi_default" else "manual_lock") ∧
      ∃ u2, findUserById
          (unlockDevice (lockDevice dbW adminW 1 "manual_lock" 10).1 adminW 1 20).1.users
          d2.user = some u2 ∧
        u2.deviceStatus.isLocked = false ∧
        u2.deviceStatus.lockReason = none) ∧
    unlockDevice dbW adminW 1 20 =
      (dbW, Except.error ⟨400, "Device is not locked"⟩) := by
  constructor
  · exact (c2_lock_then_unlock_amended dbW adminW 1 "manual_lock" 10 20
      (lockDevice dbW adminW 1 "manual_lock" 10).1
      (unlockDevice (lockDevice dbW adminW 1 "manual_lock" 10).1 adminW 1 20).1
      (Device.lockDevice devA "manual_lock" 100 10)
      (Device.unlockDevice (Device.lockDevice devA "manual_lock" 100 10) 20)).1 rfl rfl
  · exact (c2_lock_then_unlock_amended dbW adminW 1 "manual_lock" 10 20
      dbW dbW devA devA).2 devA rfl rfl (by decide)

lemma filter_id_eq_singleton (l : List User) (k : Nat) (c : User)
    (hfind : l.find? (fun u => decide (u._id = k)) = some c)
    (hnodup : (l.map (fun u => u._id)).Nodup) :
    l.filter (fun u => decide (u._id = c._id)) = [c] := by
  induction l with
  | nil => cases hfind
  | cons a t ih =>
    rw [List.map_cons, List.nodup_cons] at hnodup
    by_cases ha : a._id = k
    · rw [List.find?_cons_of_pos _ (by simp [ha])] at hfind
      obtain rfl : a = c := by simpa using hfind
      rw [List.filter_cons_of_pos (by simp)]
      have : t.filter (fun u => decide (u._id = a._id)) = [] := by
        rw [List.filter_eq_nil_iff]
        intro x hx
        simp only [decide_eq_true_eq]
        intro hxa
        exact hnodup.1 (hxa ▸ List.mem_map_of_mem (fun u => u._id) hx)
      rw [this]
    · rw [List.find?_cons_of_neg _ (by simp [ha])] at hfind
      have hc : c ∈ t := List.mem_of_find?_eq_some hfind
      have hac : ¬ a._id = c._id := by
        intro hax
        exact hnodup.1 (hax ▸ List.mem_map_of_mem (fun u => u._id) hc)
      rw [List.filter_cons_of_neg (by simp [hac])]
      exact ih hfind hnodup.2

/-- C3 counterexample: on the fixture store, the authenticated, active
`user`-role caller 11 invoking the list-users route is denied outright with
403 by `verifyToken` (the web-platform restriction of middleware/auth.js
rejects role `user` on any path outside `/api/mobile`, and the users router
is mounted at `/api/users`); no success response is possible. -/
theorem c3_list_users_counterexample :
    listUsersRoute dbW (some 11) 1 20 =
      .error ⟨403, "Web platform access restricted to admin users only"⟩ ∧
    ¬ ∃ l, listUsersRoute dbW (some 11) 1 20 = Except.ok l := by
  refine ⟨rfl, ?_⟩
  rintro ⟨l, h⟩
  simp only [show listUsersRoute dbW (some 11) 1 20 =
    .error ⟨403, "Web platform access restricted to admin users only"⟩ from rfl] at h
  exact Except.noConfusion h

/-- C3 amended: an authenticated, active `user`-role caller is denied the
list-users operation with 403 at the `verifyToken` middleware (web-platform
restriction), before the controller runs; the `getUsers` controller's
`user`-role branch — reachable only on an `/api/mobile`-prefixed path, which
no mount of this controller provides — would return exactly the caller's own
record. -/
theorem c3_list_users_user_role_amended (db : DB) (tokenId : Nat) (caller : User)
    (page limit : Nat)
    (hfind : findUserById db.users tokenId = some caller)
    (hact : caller.isActive = true)
    (hrole : caller.role = Role.user)
    (hnodup : (db.users.map (fun u => u._id)).Nodup)
    (hp : page = 1) (hl : 1 ≤ limit) :
    listUsersRoute db (some tokenId) page limit =
      .error ⟨403, "Web platform access restricted to admin users only"⟩ ∧
    getUsers db caller page limit = .ok [caller] := by
  constructor
  · unfold listUsersRoute verifyToken
    simp [hfind, hact, hrole, show isMobilePath "/" = false from rfl]
  · unfold getUsers
    rw [hrole]
    simp only [findUserById] at hfind
    rw [filter_id_eq_singleton db.users tokenId caller hfind hnodup]
    subst hp
    cases limit with
    | zero => omega
    | succ n => simp [paginate, sortByCreatedDesc, insertByCreatedDesc]

/-- C3 amended witness: fixture caller 11 (active, role `user`). -/
theorem c3_list_users_user_role_amended_witness :
    listUsersRoute dbW (some 11) 1 20 =
      .error ⟨403, "Web platform access restricted to admin users only"⟩ ∧
    getUsers dbW custA 1 20 = .ok [custA] :=
  c3_list_users_user_role_amended dbW 11 custA 1 20 rfl rfl rfl (by decide) rfl
    (by decide)

/-- Concrete fixture user with a nonzero `totalAmount` and zero `paidAmount`
whose stored `remainingAmount` (0) disagrees with `totalAmount - paidAmount`
(100). -/
def custZero : User :=
  ⟨13, "Chetan", "903", Role.user, some 1, none, none,
    ⟨100, 0, 0, 10, "active"⟩, mirrorClear, true, 3⟩

/-- Concrete fixture store for the zero-`paidAmount` save. -/
def dbZero : DB := ⟨[custZero], [], []⟩

/-- C4 counterexample: saving fixture user 13 (`totalAmount = 100`,
`paidAmount = 0`, stored `remainingAmount = 0`) leaves `remainingAmount` at 0
although `totalAmount - paidAmount = 100`: the pre-save hook's JavaScript
truthiness guard `if (totalAmount && paidAmount)` skips the recomputation
when `paidAmount` is zero, so the claimed invariant fails for zero values. -/
theorem c4_remaining_amount_counterexample :
    ((findUserById (saveUserDoc dbZero custZero).users 13).map
      (fun u => u.emiDetails.remainingAmount)) = some 0 ∧
    custZero.emiDetails.totalAmount - custZero.emiDetails.paidAmount = 100 ∧
    ¬ (((findUserById (saveUserDoc dbZero custZero).users 13).map
      (fun u => u.emiDetails.remainingAmount)) =
      some (custZero.emiDetails.totalAmount - custZero.emiDetails.paidAmount)) := by
  refine ⟨rfl, rfl, ?_⟩
  decide

/-- C4 amended: on every save, the persisted user is the pre-save-hook image
of the in-memory document, and the hook recomputes
`remainingAmount = totalAmount - paidAmount` exactly when both `totalAmount`
and `paidAmount` are nonzero (the JS truthiness guard); when either is zero
the stored `remainingAmount` is left unchanged. -/
theorem c4_remaining_amount_amended (db : DB) (u : User)
    (hmem : ∃ w ∈ db.users, w._id = u._id) :
    findUserById (saveUserDoc db u).users u._id = some (User.preSaveRemaining u) ∧
    (u.emiDetails.totalAmount ≠ 0 → u.emiDetails.paidAmount ≠ 0 →
      (User.preSaveRemaining u).emiDetails.remainingAmount =
        u.emiDetails.totalAmount - u.emiDetails.paidAmount) ∧
    (u.emiDetails.totalAmount = 0 ∨ u.emiDetails.paidAmount = 0 →
      (User.preSaveRemaining u).emiDetails.remainingAmount =
        u.emiDetails.remainingAmount) := by
  refine ⟨?_, ?_, ?_⟩
  · have husr : (saveUserDoc db u).users =
        db.users.map (fun x =>
          if x._id = (User.preSaveRemaining u)._id
          then User.preSaveRemaining u else x) := rfl
    rw [findUserById, husr]
    exact find_replace_eq User._id db.users u._id (User.preSaveRemaining u)
      (User.preSaveRemaining_id u) hmem
  · intro h1 h2
    unfold User.preSaveRemaining
    rw [if_pos ⟨h1, h2⟩]
  · intro h
    unfold User.preSaveRemaining
    rw [if_neg]
    rintro ⟨ha, hb⟩
    cases h with
    | inl h0 => exact ha h0
    | inr h0 => exact hb h0

/-- C4 amended witness: saving fixture user 11 (totals 1000/200) persists the
recomputed `remainingAmount` 800. -/
theorem c4_remaining_amount_amended_witness :
    findUserById (saveUserDoc dbW custA).users custA._id =
      some (User.preSaveRemaining custA) ∧
    (User.preSaveRemaining custA).emiDetails.remainingAmount = 800 := by
  refine ⟨(c4_remaining_amount_amended dbW custA ⟨custA, by decide, rfl⟩).1, ?_⟩
  decide

lemma populatedShopIds_of_found (db : DB) (devices : List Device)
    (h : ∀ d ∈ devices, d.shop ∈ db.shops.map (fun s => s._id)) :
    populatedShopIds db devices = some (devices.map (fun d => d.shop)) := by
  induction devices with
  | nil => rfl
  | cons d rest ih =>
    have hd := h d (List.mem_cons_self d rest)
    have hfind : ∃ sh, findShopById db.shops d.shop = some sh := by
      rw [← Option.isSome_iff_exists, findShopById, List.find?_isSome]
      obtain ⟨s, hs, hid⟩ := List.mem_map.mp hd
      exact ⟨s, hs, by simpa using hid⟩
    obtain ⟨sh, hsh⟩ := hfind
    have hshid : sh._id = d.shop := by
      have hsh' := hsh
      simp only [findShopById] at hsh'
      simpa using List.find?_some hsh'
    unfold populatedShopIds
    rw [hsh, ih (fun x hx => h x (List.mem_cons_of_mem d hx))]
    simp [hshid]

/-- C5: a bulk lock whose in-scope device set is one already-locked device
and one unlocked device (in either order, with the unlocked device's owner
present and both devices' shop references resolvable — a dangling shop
reference would instead abort the response with a 500) completes with one
successful and one failed entry, the failure reason being exactly
"Already locked"; the per-device failure does not abort the processing of
the other device. -/
theorem c5_bulk_lock_partial_failure (db : DB) (caller : User)
    (deviceIds : List Nat) (reason : String) (now : Nat) (a b : Device) (ub : User)
    (hids : deviceIds ≠ [])
    (hrole : caller.role ≠ Role.user)
    (hscope : bulkScopedDevices db caller deviceIds = some [a, b])
    (hshops : ∀ d ∈ [a, b], d.shop ∈ db.shops.map (fun s => s._id))
    (hcase :
      (a.lockStatus.isLocked = true ∧ b.lockStatus.isLocked = false ∧
        findUserById db.users b.user = some ub) ∨
      (a.lockStatus.isLocked = false ∧ b.lockStatus.isLocked = true ∧
        findUserById db.users a.user = some ub)) :
    ∃ db' r tr,
      bulkLockDevices db caller deviceIds reason now = (db', Except.ok r, tr) ∧
      r.successful.length = 1 ∧ r.failed.length = 1 ∧
      ∀ f ∈ r.failed, f.reason = "Already locked" := by
  have hpop : populatedShopIds db [a, b] = some ([a, b].map (fun d => d.shop)) :=
    populatedShopIds_of_found db [a, b] hshops
  unfold bulkLockDevices
  rw [if_neg hids, if_neg hrole, hscope]
  rcases hcase with ⟨ha, hb, hub⟩ | ⟨ha, hb, hub⟩ <;>
  · simp [List.foldl_cons, List.foldl_nil, bulkLockStep, ha, hb, hub, hpop,
      saveDeviceDoc_users]
    exact ⟨_, _, ⟨rfl, rfl⟩, rfl, rfl, by simp⟩

/-- C5 witness: superadmin bulk-locks fixture devices 1 (unlocked) and 2
(already locked), both in the existing shop 1. -/
theorem c5_bulk_lock_partial_failure_witness :
    ∃ db' r tr,
      bulkLockDevices dbW adminW [1, 2] "manual_lock" 30 = (db', Except.ok r, tr) ∧
      r.successful.length = 1 ∧ r.failed.length = 1 ∧
      ∀ f ∈ r.failed, f.reason = "Already locked" :=
  c5_bulk_lock_partial_failure dbW adminW [1, 2] "manual_lock" 30 devA devB custA
    (by decide) (by decide) (by decide) (by decide)
    (Or.inr ⟨rfl, rfl, rfl⟩)

lemma mem_dedupFirstAux (a : Nat) (l : List Nat) :
    ∀ seen, a ∈ dedupFirstAux seen l ↔ (a ∈ l ∧ a ∉ seen) := by
  induction l with
  | nil => intro seen; simp [dedupFirstAux]
  | cons x xs ih =>
    intro seen
    unfold dedupFirstAux
    by_cases hx : x ∈ seen
    · rw [if_pos hx, ih]
      constructor
      · rintro ⟨hmem, hns⟩
        exact ⟨List.mem_cons_of_mem x hmem, hns⟩
      · rintro ⟨hmem, hns⟩
        rcases List.mem_cons.mp hmem with rfl | hmem
        · exact absurd hx hns
        · exact ⟨hmem, hns⟩
    · rw [if_neg hx]
      constructor
      · intro h
        rcases List.mem_cons.mp h with rfl | h
        · exact ⟨List.mem_cons_self a xs, hx⟩
        · obtain ⟨hmem, hns⟩ := (ih (x :: seen)).mp h
          exact ⟨List.mem_cons_of_mem x hmem,
            fun hs => hns (List.mem_cons_of_mem x hs)⟩
      · rintro ⟨hmem, hns⟩
        rcases List.mem_cons.mp hmem with rfl | hmem
        · exact List.mem_cons_self a _
        · by_cases hax : a = x
          · subst hax; exact List.mem_cons_self a _
          · exact List.mem_cons_of_mem x ((ih (x :: seen)).mpr
              ⟨hmem, fun hs => (List.mem_cons.mp hs).elim hax hns⟩)

lemma dedupFirstAux_nodup (l : List Nat) : ∀ seen, (dedupFirstAux seen l).Nodup := by
  induction l with
  | nil => intro seen; simp [dedupFirstAux]
  | cons x xs ih =>
    intro seen
    unfold dedupFirstAux
    by_cases hx : x ∈ seen
    · rw [if_pos hx]; exact ih seen
    · rw [if_neg hx]
      refine List.nodup_cons.mpr ⟨?_, ih (x :: seen)⟩
      intro hmem
      exact ((mem_dedupFirstAux x xs (x :: seen)).mp hmem).2 (List.mem_cons_self x seen)

lemma mem_dedupFirst (a : Nat) (l : List Nat) : a ∈ dedupFirst l ↔ a ∈ l := by
  rw [dedupFirst, mem_dedupFirstAux]
  simp

lemma dedupFirst_nodup (l : List Nat) : (dedupFirst l).Nodup :=
  dedupFirstAux_nodup l []

lemma saveShopDoc_shops_ids (db : DB) (s : Shop) :
    (saveShopDoc db s).shops.map (fun x => x._id) = db.shops.map (fun x => x._id) :=
  map_f_replace Shop._id db.shops s

lemma updateStatistics_shops_ids (db : DB) (sh : Shop) :
    (Shop.updateStatistics db sh).shops.map (fun x => x._id) =
      db.shops.map (fun x => x._id) :=
  saveShopDoc_shops_ids db _

lemma runStats_trace (l : List Nat) : ∀ db : DB,
    (∀ sid ∈ l, sid ∈ db.shops.map (fun s => s._id)) → (runStats db l).2 = l := by
  induction l with
  | nil => intro db _; rfl
  | cons sid rest ih =>
    intro db h
    have hsid := h sid (List.mem_cons_self sid rest)
    obtain ⟨s, hs, hid⟩ := List.mem_map.mp hsid
    have hfind : ∃ sh, findShopById db.shops sid = some sh := by
      rw [← Option.isSome_iff_exists, findShopById, List.find?_isSome]
      exact ⟨s, hs, by simpa using hid⟩
    obtain ⟨sh, hsh⟩ := hfind
    unfold runStats
    rw [hsh]
    simp only [List.cons.injEq, true_and]
    apply ih
    intro sid' hsid'
    rw [updateStatistics_shops_ids]
    exact h sid' (List.mem_cons_of_mem sid hsid')

lemma bulkLockStep_shops (cid : Nat) (reason : String) (now : Nat)
    (acc : DB × BulkResults) (d : Device) :
    (bulkLockStep cid reason now acc d).1.shops = acc.1.shops := by
  unfold bulkLockStep
  split
  · cases hfu : findUserById acc.1.users d.user <;>
      simp [hfu, saveUserDoc_shops, saveDeviceDoc_shops]
  · rfl

lemma bulkUnlockStep_shops (now : Nat) (acc : DB × BulkResults) (d : Device) :
    (bulkUnlockStep now acc d).1.shops = acc.1.shops := by
  unfold bulkUnlockStep
  split
  · cases hfu : findUserById acc.1.users d.user <;>
      simp [hfu, saveUserDoc_shops, saveDeviceDoc_shops]
  · rfl

lemma foldl_bulkLockStep_shops (cid : Nat) (reason : String) (now : Nat)
    (l : List Device) : ∀ init : DB × BulkResults,
    (l.foldl (bulkLockStep cid reason now) init).1.shops = init.1.shops := by
  induction l with
  | nil => intro init; rfl
  | cons d t ih =>
    intro init
    rw [List.foldl_cons, ih, bulkLockStep_shops]

lemma foldl_bulkUnlockStep_shops (now : Nat) (l : List Device) :
    ∀ init : DB × BulkResults,
    (l.foldl (bulkUnlockStep now) init).1.shops = init.1.shops := by
  induction l with
  | nil => intro init; rfl
  | cons d t ih =>
    intro init
    rw [List.foldl_cons, ih, bulkUnlockStep_shops]

/-- C6: after a bulk lock or bulk unlock completes its batch, the statistics
recomputation runs exactly once per distinct shop owning a device in the
processed set (the shop ids are first-occurrence deduplicated), not once per
device: the recomputation trace has no duplicates and contains precisely the
shops of the processed devices. -/
theorem c6_bulk_stats_once_per_shop (db : DB) (caller : User)
    (deviceIds : List Nat) (reason : String) (now : Nat) (devices : List Device)
    (hids : deviceIds ≠ []) (hrole : caller.role ≠ Role.user)
    (hscope : bulkScopedDevices db caller deviceIds = some devices)
    (hnz : devices ≠ [])
    (hshops : ∀ d ∈ devices, d.shop ∈ db.shops.map (fun s => s._id)) :
    ((bulkLockDevices db caller deviceIds reason now).2.2.Nodup ∧
      ∀ s, s ∈ (bulkLockDevices db caller deviceIds reason now).2.2 ↔
        s ∈ devices.map (fun d => d.shop)) ∧
    ((bulkUnlockDevices db caller deviceIds now).2.2.Nodup ∧
      ∀ s, s ∈ (bulkUnlockDevices db caller deviceIds now).2.2 ↔
        s ∈ devices.map (fun d => d.shop)) := by
  have hdedup : ∀ sid ∈ dedupFirst (devices.map (fun d => d.shop)),
      sid ∈ db.shops.map (fun s => s._id) := by
    intro sid hsid
    obtain ⟨d, hd, rfl⟩ :=
      List.mem_map.mp ((mem_dedupFirst sid (devices.map (fun d => d.shop))).mp hsid)
    exact hshops d hd
  constructor
  · unfold bulkLockDevices
    rw [if_neg hids, if_neg hrole, hscope]
    simp only [if_neg hnz]
    rw [populatedShopIds_of_found db devices hshops]
    have htrace : (runStats
        ((devices.foldl (bulkLockStep caller._id reason now) (db, ⟨[], []⟩)).1)
        (dedupFirst (devices.map (fun d => d.shop)))).2 =
        dedupFirst (devices.map (fun d => d.shop)) := by
      apply runStats_trace
      intro sid hsid
      rw [foldl_bulkLockStep_shops]
      exact hdedup sid hsid
    simp only [htrace]
    exact ⟨dedupFirst_nodup _, fun s => mem_dedupFirst s _⟩
  · unfold bulkUnlockDevices
    rw [if_neg hids, if_neg hrole, hscope]
    simp only [if_neg hnz]
    rw [populatedShopIds_of_found db devices hshops]
    have htrace : (runStats
        ((devices.foldl (bulkUnlockStep now) (db, ⟨[], []⟩)).1)
        (dedupFirst (devices.map (fun d => d.shop)))).2 =
        dedupFirst (devices.map (fun d => d.shop)) := by
      apply runStats_trace
      intro sid hsid
      rw [foldl_bulkUnlockStep_shops]
      exact hdedup sid hsid
    simp only [htrace]
    exact ⟨dedupFirst_nodup _, fun s => mem_dedupFirst s _⟩

/-- C6 witness: superadmin bulk-lock and bulk-unlock over fixture devices 1
and 2 (both in shop 1): statistics are recomputed for shop 1 once. -/
theorem c6_bulk_stats_once_per_shop_witness :
    ((bulkLockDevices dbW adminW [1, 2] "manual_lock" 30).2.2.Nodup ∧
      ∀ s, s ∈ (bulkLockDevices dbW adminW [1, 2] "manual_lock" 30).2.2 ↔
        s ∈ [devA, devB].map (fun d => d.shop)) ∧
    ((bulkUnlockDevices dbW adminW [1, 2] 30).2.2.Nodup ∧
      ∀ s, s ∈ (bulkUnlockDevices dbW adminW [1, 2] 30).2.2 ↔
        s ∈ [devA, devB].map (fun d => d.shop)) :=
  c6_bulk_stats_once_per_shop dbW adminW [1, 2] "manual_lock" 30 [devA, devB]
    (by decide) (by decide) (by decide) (by decide) (by decide)

lemma length_filter_add_length_filter_not (l : List User) (p : User → Bool) :
    (l.filter p).length + (l.filter (fun u => ¬ p u = true)).length = l.length := by
  induction l with
  | nil => rfl
  | cons a t ih =>
    by_cases h : p a = true
    · rw [List.filter_cons_of_pos h, List.filter_cons_of_neg (by simp [h])]
      simp only [List.length_cons, ← ih]
      omega
    · rw [List.filter_cons_of_neg (by simpa using h),
        List.filter_cons_of_pos (by simpa using h)]
      simp only [List.length_cons, ← ih]
      omega

/-- C7: for a shop whose user set has 5 users, 2 of them inactive and 1 with
a locked device mirror, `updateStatistics` persists exactly
`{totalUsers: 5, activeUsers: 3, lockedDevices: 1, totalRevenue: sum of the
matched users' emiDetails.paidAmount}` on the shop document. -/
theorem c7_update_statistics_scenario (db : DB) (shop : Shop)
    (hfound : findShopById db.shops shop._id = some shop)
    (h5 : (db.users.filter (fun u => decide (u.shop = some shop._id))).length = 5)
    (h2 : ((db.users.filter (fun u => decide (u.shop = some shop._id))).filter
      (fun u => ¬ u.isActive = true)).length = 2)
    (h1 : ((db.users.filter (fun u => decide (u.shop = some shop._id))).filter
      (fun u => u.deviceStatus.isLocked)).length = 1) :
    (findShopById (Shop.updateStatistics db shop).shops shop._id).map
      (fun s => s.statistics) =
    some
      { totalUsers := 5
        activeUsers := 3
        lockedDevices := 1
        totalRevenue := ((db.users.filter
          (fun u => decide (u.shop = some shop._id))).map
          (fun u => u.emiDetails.paidAmount)).sum } := by
  have h3 : ((db.users.filter (fun u => decide (u.shop = some shop._id))).filter
      (fun u => u.isActive)).length = 3 := by
    have := length_filter_add_length_filter_not
      (db.users.filter (fun u => decide (u.shop = some shop._id)))
      (fun u => u.isActive)
    omega
  have hstats : shopUserStats db.users shop._id =
      some
        { totalUsers := 5
          activeUsers := 3
          lockedDevices := 1
          totalRevenue := ((db.users.filter
            (fun u => decide (u.shop = some shop._id))).map
            (fun u => u.emiDetails.paidAmount)).sum } := by
    unfold shopUserStats
    rw [if_neg (by omega)]
    rw [h5, h3, h1]
  have hmem : ∃ x ∈ db.shops, x._id = shop._id :=
    ⟨shop, List.mem_of_find?_eq_some hfound, rfl⟩
  have key : ∀ st : Statistics, shopUserStats db.users shop._id = some st →
      (findShopById (Shop.updateStatistics db shop).shops shop._id).map
        (fun s => s.statistics) = some st := by
    intro st hst
    have hsave : (Shop.updateStatistics db shop).shops =
        db.shops.map (fun x =>
          if x._id = ({ shop with statistics := st } : Shop)._id
          then ({ shop with statistics := st } : Shop) else x) := by
      unfold Shop.updateStatistics
      rw [hst]
      rfl
    rw [findShopById, hsave,
      find_replace_eq Shop._id db.shops shop._id
        ({ shop with statistics := st } : Shop) rfl hmem]
    rfl
  exact key _ hstats

/-- Concrete fixture shop (id 3) for the 5-user statistics scenario. -/
def shopC : Shop := ⟨3, "Shop C", ⟨0, 0, 0, 0⟩, true⟩

/-- Five fixture users of shop 3: three active (one of them with a locked
device mirror), two inactive. -/
def usersC : List User :=
  [⟨21, "U1", "911", Role.user, some 3, none, none,
      ⟨100, 10, 90, 10, "active"⟩, mirrorClear, true, 1⟩,
   ⟨22, "U2", "912", Role.user, some 3, none, none,
      ⟨100, 20, 80, 10, "active"⟩, mirrorClear, true, 2⟩,
   ⟨23, "U3", "913", Role.user, some 3, none, none,
      ⟨100, 30, 70, 10, "active"⟩,
      ⟨true, some 4, none, some "emi_default"⟩, true, 3⟩,
   ⟨24, "U4", "914", Role.user, some 3, none, none,
      ⟨100, 40, 60, 10, "active"⟩, mirrorClear, false, 4⟩,
   ⟨25, "U5", "915", Role.user, some 3, none, none,
      ⟨100, 0, 100, 10, "active"⟩, mirrorClear, false, 5⟩]

/-- Concrete fixture store for the statistics scenario. -/
def dbC : DB := ⟨usersC, [], [shopC]⟩

/-- C7 witness: the 5-user fixture shop; 2 users inactive, 1 locked mirror,
paid amounts summing to 100. -/
theorem c7_update_statistics_scenario_witness :
    (findShopById (Shop.updateStatistics dbC shopC).shops shopC._id).map
      (fun s => s.statistics) =
    some
      { totalUsers := 5
        activeUsers := 3
        lockedDevices := 1
        totalRevenue := ((dbC.users.filter
          (fun u => decide (u.shop = some shopC._id))).map
          (fun u => u.emiDetails.paidAmount)).sum } :=
  c7_update_statistics_scenario dbC shopC rfl (by decide) (by decide) (by decide)

/-- C10 (implicit): running `updateStatistics` for a shop with zero matching
users leaves the shop's previously stored statistics snapshot exactly as it
was — the empty aggregation result makes the method skip the assignment and
re-save the unchanged document — and touches no user or device. -/
theorem c10_update_statistics_zero_users_frame (db : DB) (shop : Shop)
    (hfound : findShopById db.shops shop._id = some shop)
    (hzero : db.users.filter (fun u => decide (u.shop = some shop._id)) = []) :
    findShopById (Shop.updateStatistics db shop).shops shop._id = some shop ∧
    (Shop.updateStatistics db shop).users = db.users ∧
    (Shop.updateStatistics db shop).devices = db.devices := by
  have hstats : shopUserStats db.users shop._id = none := by
    simp [shopUserStats, hzero]
  have hmem : ∃ x ∈ db.shops, x._id = shop._id :=
    ⟨shop, List.mem_of_find?_eq_some hfound, rfl⟩
  have hsave : (Shop.updateStatistics db shop).shops =
      db.shops.map (fun x => if x._id = shop._id then shop else x) := by
    unfold Shop.updateStatistics
    rw [hstats]
    rfl
  refine ⟨?_, rfl, rfl⟩
  rw [findShopById, hsave]
  exact find_replace_eq Shop._id db.shops shop._id shop rfl hmem

/-- Concrete fixture shop (id 4) with a nonzero stored statistics snapshot
and no users. -/
def shopD : Shop := ⟨4, "Shop D", ⟨7, 5, 2, 900⟩, true⟩

/-- Concrete fixture store whose only user belongs to a different shop. -/
def dbD : DB := ⟨[custA], [], [shopD]⟩

/-- C10 witness: recomputing the zero-user fixture shop 4 leaves its stored
snapshot `{7, 5, 2, 900}` untouched. -/
theorem c10_update_statistics_zero_users_frame_witness :
    findShopById (Shop.updateStatistics dbD shopD).shops shopD._id = some shopD ∧
    (Shop.updateStatistics dbD shopD).users = dbD.users ∧
    (Shop.updateStatistics dbD shopD).devices = dbD.devices :=
  c10_update_statistics_zero_users_frame dbD shopD rfl (by decide)

/-- C8: registering a device whose `deviceId` or `imeiNumber` matches an
existing device fails with the duplicate-conflict 400 and returns the store
unchanged — no new Device record is created and no User or Shop field is
modified by the failed call. (Hypotheses: the target user exists and the
caller passed the access check, so the duplicate check is reached.) -/
theorem c8_register_duplicate_conflict (db : DB) (caller : User) (userId : Nat)
    (deviceId imeiNumber : String) (newId now : Nat) (target : User)
    (hfind : findUserById db.users userId = some target)
    (hacc : registerAccessCheck db caller target userId = some none)
    (hdup : ∃ d ∈ db.devices, d.deviceId = deviceId ∨ d.imeiNumber = imeiNumber) :
    registerDevice db caller userId deviceId imeiNumber newId now =
      (db, Except.error ⟨400, "Device with this ID or IMEI already exists"⟩) := by
  have hfd : ∃ e, db.devices.find?
      (fun d => decide (d.deviceId = deviceId ∨ d.imeiNumber = imeiNumber)) = some e := by
    rw [← Option.isSome_iff_exists, List.find?_isSome]
    obtain ⟨d, hd, hor⟩ := hdup
    exact ⟨d, hd, by simpa using hor⟩
  obtain ⟨e, he⟩ := hfd
  have he' : db.devices.find?
      (fun d => decide (d.deviceId = deviceId) || decide (d.imeiNumber = imeiNumber)) =
      some e := by simpa using he
  unfold registerDevice
  simp [hfind, hacc, he']

/-- C8 witness: duplicate `deviceId` "DEV1" registration on the fixture
store by the superadmin. -/
theorem c8_register_duplicate_conflict_witness :
    registerDevice dbW adminW 11 "DEV1" "999999999999999" 50 60 =
      (dbW, Except.error ⟨400, "Device with this ID or IMEI already exists"⟩) :=
  c8_register_duplicate_conflict dbW adminW 11 "DEV1" "999999999999999" 50 60 custA
    rfl rfl ⟨devA, by decide, Or.inl rfl⟩

/-- C9: an authenticated, active `user`-role caller invoking the lock route
receives an authorization DENY (403) for every device id and every request
path, the store is unchanged, and the outcome is identical in any two runs
whose stores agree on the user collection — in particular whether or not a
device with that id exists — because both denial layers (`verifyToken`'s
web-platform restriction and `authorize('shopowner','superadmin')`) run
before any device lookup. -/
theorem c9_lock_user_role_denied (db db2 : DB) (token : Nat) (path : String)
    (id : Nat) (reason : String) (now : Nat) (caller : User)
    (husers : db2.users = db.users)
    (hfind : findUserById db.users token = some caller)
    (hact : caller.isActive = true)
    (hrole : caller.role = Role.user) :
    ∃ e : ErrResp, e.status = 403 ∧
      lockDeviceRoute db (some token) path id reason now = (db, Except.error e) ∧
      lockDeviceRoute db2 (some token) path id reason now = (db2, Except.error e) := by
  have hnotin : ¬ (Role.user ∈ [Role.shopowner, Role.superadmin]) := by decide
  by_cases hm : isMobilePath path = true
  · refine ⟨⟨403, "Access denied. Insufficient permissions."⟩, rfl, ?_, ?_⟩ <;>
    · unfold lockDeviceRoute verifyToken authorize
      simp [husers, hfind, hact, hrole, hm, hnotin]
  · have hm' : isMobilePath path = false := by simpa using hm
    refine ⟨⟨403, "Web platform access restricted to admin users only"⟩, rfl, ?_, ?_⟩ <;>
    · unfold lockDeviceRoute verifyToken
      simp [husers, hfind, hact, hrole, hm']

/-- Concrete fixture store identical to `dbW` but with no devices at all. -/
def dbNoDev : DB := ⟨[adminW, custA, custB], [], [shopA, shopB]⟩

/-- C9 witness: the active `user`-role caller 11 on the lock route for device
id 1, once against the fixture store where device 1 exists and once against
the device-free store: the same 403 denial, stores untouched. -/
theorem c9_lock_user_role_denied_witness :
    ∃ e : ErrResp, e.status = 403 ∧
      lockDeviceRoute dbW (some 11) "/1/lock" 1 "emi_default" 70 =
        (dbW, Except.error e) ∧
      lockDeviceRoute dbNoDev (some 11) "/1/lock" 1 "emi_default" 70 =
        (dbNoDev, Except.error e) :=
  c9_lock_user_role_denied dbW dbNoDev 11 "/1/lock" 1 "emi_default" 70 custA
    rfl rfl rfl rfl
